import Mathlib

/-!
Shallow embedding of `src/mcp_monumenten/server.py` (woonstadrotterdam/mcp-monumenten).

The repository registers two MCP tools:

* `get_verblijfsobject_id` — validates an address fragment, selects one of two
  search modes, builds a SPARQL query string, posts it to the Kadaster endpoint
  and classifies the JSON response into not-found / unique / ambiguous.
* `get_monumental_status` — forwards one identifier to the external
  `MonumentenClient` and returns its result pretty-printed with a fixed
  advisory sentence.

The network is modelled as an explicit argument (`NetResult`): the Python
function's single outbound POST either raises (the broad `except Exception`
catches it) or yields an HTTP status plus the parsed `results.bindings` list.
All string manipulation (f-strings, `str.strip`, `json.dumps`) is embedded
character-faithfully.  Python truthiness of optional strings is `truthy`.
-/

/-- Python truthiness of an `Optional[str]` value: `None` and `""` are falsy. -/
def truthy : Option String → Bool
  | none => false
  | some s => s ≠ ""

/-- Python `str(x)` of an `Optional[str]`, as an f-string interpolates it. -/
def pyShowOpt : Option String → String
  | none => "None"
  | some s => s

/-- ASCII whitespace recognised by Python's `str.strip()` (the registry inputs
are ASCII; the unicode-space cases of CPython's `strip` do not affect any
claim, all of which only test whether the stripping yields `""`). -/
def isPySpace (c : Char) : Bool :=
  c = ' ' || c = '\t' || c = '\n' || c = '\r' || c = '\x0b' || c = '\x0c'

/-- Python `s.strip()`: drop leading and trailing whitespace. -/
def pyStrip (s : String) : String :=
  String.mk (((s.data.dropWhile isPySpace).reverse.dropWhile isPySpace).reverse)

/-- Caller input of `get_verblijfsobject_id` (its keyword parameters). -/
structure AddressInput where
  house_number : String
  postal_code : Option String := none
  street : Option String := none
  city : Option String := none
  house_letter : Option String := none
  house_suffix : Option String := none
deriving DecidableEq

/-- The two search modes (`search_mode` local variable in the source). -/
inductive SearchMode where
  | postal_code
  | address
deriving DecidableEq

/-- Lines 63–79 of `server.py`: input-combination validation and mode
selection; `Except.error` is an early `return` of the error string. -/
def validate (i : AddressInput) : Except String SearchMode :=
  if truthy i.postal_code && (truthy i.street || truthy i.city) then
    Except.error "Error: Provide either postal_code OR (street + city), not both."
  else if truthy i.postal_code then
    if pyStrip (i.postal_code.getD "") = "" then
      Except.error "Error: postal_code cannot be empty when using postal code search."
    else
      Except.ok SearchMode.postal_code
  else if truthy i.street && truthy i.city then
    if pyStrip (i.street.getD "") = "" || pyStrip (i.city.getD "") = "" then
      Except.error "Error: street and city cannot be empty when using address search."
    else
      Except.ok SearchMode.address
  else
    Except.error "Error: Provide either (postal_code + house_number) OR (street + house_number + city)."

/-- Line 84/121: `f'?adres imx:huisletter "{house_letter}" .' if house_letter else ''`. -/
def letter_clause (house_letter : Option String) : String :=
  if truthy house_letter then "?adres imx:huisletter \"" ++ house_letter.getD "" ++ "\" ." else ""

/-- Line 85/122: `f'?adres imx:huisnummertoevoeging "{house_suffix}" .' if house_suffix else ''`. -/
def suffix_clause (house_suffix : Option String) : String :=
  if truthy house_suffix then "?adres imx:huisnummertoevoeging \"" ++ house_suffix.getD "" ++ "\" ." else ""

/-- Line 86/123: the huisletter absence filter, emitted only when no letter was given. -/
def letter_filter (house_letter : Option String) : String :=
  if truthy house_letter then "" else "FILTER NOT EXISTS \x7b ?adres imx:huisletter ?_hl . \x7d"

/-- Line 87/124: the huisnummertoevoeging absence filter (with the `"H"`
exception), emitted only when no suffix was given. -/
def suffix_filter (house_suffix : Option String) : String :=
  if truthy house_suffix then "" else "FILTER NOT EXISTS \x7b ?adres imx:huisnummertoevoeging ?_hs . FILTER(?_hs != \"H\") \x7d"

/-- Line 88/125: `letter_bind`. -/
def letter_bind : String := "OPTIONAL \x7b ?adres imx:huisletter ?huisletter . \x7d"

/-- Line 89/126: `suffix_bind`. -/
def suffix_bind : String := "OPTIONAL \x7b ?adres imx:huisnummertoevoeging ?huisnummertoevoeging . \x7d"

/-- Lines 91–117: the postal-code-mode SPARQL query.  The source builds it as
an f-string opening and closing with a newline and applies `.strip()`; since
the text begins with `PREFIX` and ends with the closing brace (both
non-whitespace), the stripped result is written here directly. -/
def postalQuery (i : AddressInput) : String :=
  "PREFIX prov: <http://www.w3.org/ns/prov#>\nPREFIX imx:  <http://modellen.geostandaarden.nl/def/imx-geo#>\n\nSELECT DISTINCT ?identificatie ?postcode ?huisnummer ?huisletter ?huisnummertoevoeging ?straatnaam ?plaatsnaam\nWHERE \x7b\n  ?adres prov:wasDerivedFrom ?verblijfsobjectIri ;\n         imx:isHoofdadres true ;\n         imx:postcode \"" ++
  pyShowOpt i.postal_code ++
  "\" ;\n         imx:huisnummer " ++
  i.house_number ++
  " .\n  \n  " ++
  letter_clause i.house_letter ++
  "\n  " ++
  suffix_clause i.house_suffix ++
  "\n\n  " ++
  letter_filter i.house_letter ++
  "\n  " ++
  suffix_filter i.house_suffix ++
  "\n\n  OPTIONAL \x7b ?adres imx:postcode ?postcode . \x7d\n  OPTIONAL \x7b ?adres imx:huisnummer ?huisnummer . \x7d\n  " ++
  letter_bind ++
  "\n  " ++
  suffix_bind ++
  "\n  OPTIONAL \x7b ?adres imx:straatnaam ?straatnaam . \x7d\n  OPTIONAL \x7b ?adres imx:plaatsnaam ?plaatsnaam . \x7d\n\n  BIND(STRAFTER(STR(?verblijfsobjectIri), \"https://bag.basisregistraties.overheid.nl/id/verblijfsobject/\") AS ?identificatie)\n\x7d"

/-- Lines 128–155: the address-mode SPARQL query (street + house number +
city), same `.strip()` convention as `postalQuery`. -/
def addressQuery (i : AddressInput) : String :=
  "PREFIX prov: <http://www.w3.org/ns/prov#>\nPREFIX imx:  <http://modellen.geostandaarden.nl/def/imx-geo#>\n\nSELECT DISTINCT ?identificatie ?postcode ?huisnummer ?huisletter ?huisnummertoevoeging ?straatnaam ?plaatsnaam\nWHERE \x7b\n  ?adres prov:wasDerivedFrom ?verblijfsobjectIri ;\n         imx:isHoofdadres true ;\n         imx:straatnaam \"" ++
  pyShowOpt i.street ++
  "\" ;\n         imx:huisnummer " ++
  i.house_number ++
  " ;\n         imx:plaatsnaam \"" ++
  pyShowOpt i.city ++
  "\" .\n  \n  " ++
  letter_clause i.house_letter ++
  "\n  " ++
  suffix_clause i.house_suffix ++
  "\n\n  " ++
  letter_filter i.house_letter ++
  "\n  " ++
  suffix_filter i.house_suffix ++
  "\n\n  OPTIONAL \x7b ?adres imx:straatnaam ?straatnaam . \x7d\n  OPTIONAL \x7b ?adres imx:huisnummer ?huisnummer . \x7d\n  OPTIONAL \x7b ?adres imx:plaatsnaam ?plaatsnaam . \x7d\n  " ++
  letter_bind ++
  "\n  " ++
  suffix_bind ++
  "\n  OPTIONAL \x7b ?adres imx:postcode ?postcode . \x7d\n\n  BIND(STRAFTER(STR(?verblijfsobjectIri), \"https://bag.basisregistraties.overheid.nl/id/verblijfsobject/\") AS ?identificatie)\n\x7d"

/-- Query dispatch on the selected mode (the `if search_mode == "postal_code"`
branch at line 82 versus the `else` branch at line 119). -/
def buildQuery (mode : SearchMode) (i : AddressInput) : String :=
  match mode with
  | SearchMode.postal_code => postalQuery i
  | SearchMode.address => addressQuery i

/-- One SPARQL JSON binding row.  The source reads only these seven variables
out of each binding map, each as `b.get(k, \x7b\x7d).get('value')`, so a
binding is embedded as seven optional values. -/
structure Binding where
  identificatie : Option String := none
  postcode : Option String := none
  huisnummer : Option String := none
  huisletter : Option String := none
  huisnummertoevoeging : Option String := none
  straatnaam : Option String := none
  plaatsnaam : Option String := none
deriving DecidableEq

/-- One element of the `full` list built at lines 177–188: a dict with seven
keys mirroring the binding. -/
structure AddressMatch where
  bag_verblijfsobject_id : Option String
  postcode : Option String
  huisnummer : Option String
  huisletter : Option String
  huisnummertoevoeging : Option String
  straatnaam : Option String
  plaatsnaam : Option String
deriving DecidableEq

/-- Lines 177–188: the dict comprehension body mapping a binding to its row. -/
def toMatch (b : Binding) : AddressMatch :=
  ⟨b.identificatie, b.postcode, b.huisnummer, b.huisletter, b.huisnummertoevoeging,
    b.straatnaam, b.plaatsnaam⟩

/-- Outcome of the single outbound POST (lines 167–207): either the broadly
caught transport exception with its `str(e)` text, or an HTTP status together
with the parsed `results.bindings` list (which the source only reads when the
status is 200). -/
inductive NetResult where
  | exn (msg : String)
  | http (status : Nat) (bindings : List Binding)
deriving DecidableEq

/-- One hex digit, lowercase, as CPython's json encoder emits in `\uXXXX`. -/
def hexDigit (n : Nat) : Char :=
  if n < 10 then Char.ofNat (48 + n) else Char.ofNat (87 + n)

/-- Four lowercase hex digits. -/
def hex4 (n : Nat) : String :=
  String.mk [hexDigit (n / 4096 % 16), hexDigit (n / 256 % 16), hexDigit (n / 16 % 16), hexDigit (n % 16)]

/-- CPython `json` escaping of a single character; `ensureAscii` selects
whether characters above U+007F are `\uXXXX`-escaped (surrogate pairs beyond
the BMP), as `json.dumps` does by default but not with `ensure_ascii=False`. -/
def jsonEscChar (ensureAscii : Bool) (c : Char) : String :=
  if c = '"' then "\\\""
  else if c = '\\' then "\\\\"
  else if c = '\n' then "\\n"
  else if c = '\r' then "\\r"
  else if c = '\t' then "\\t"
  else if c = '\x08' then "\\b"
  else if c = '\x0c' then "\\f"
  else if c.toNat < 32 then "\\u" ++ hex4 c.toNat
  else if ensureAscii && 128 ≤ c.toNat then
    if c.toNat < 65536 then "\\u" ++ hex4 c.toNat
    else "\\u" ++ hex4 (55296 + (c.toNat - 65536) / 1024) ++ "\\u" ++ hex4 (56320 + (c.toNat - 65536) % 1024)
  else String.singleton c

/-- `json.dumps` of a Python `str`. -/
def json_dumps_str (ensureAscii : Bool) (s : String) : String :=
  "\"" ++ String.join (s.data.map (jsonEscChar ensureAscii)) ++ "\""

/-- `json.dumps` of an `Optional[str]` value (`None` becomes `null`);
`ensure_ascii=False` here, as at lines 196 and 198. -/
def json_dumps_val : Option String → String
  | none => "null"
  | some s => json_dumps_str false s

/-- `json.dumps(…, ensure_ascii=False)` of one row dict, keys in insertion
order with the default `', '` / `': '` separators. -/
def json_dumps_row (r : AddressMatch) : String :=
  "\x7b\"bag_verblijfsobject_id\": " ++ json_dumps_val r.bag_verblijfsobject_id ++
  ", \"postcode\": " ++ json_dumps_val r.postcode ++
  ", \"huisnummer\": " ++ json_dumps_val r.huisnummer ++
  ", \"huisletter\": " ++ json_dumps_val r.huisletter ++
  ", \"huisnummertoevoeging\": " ++ json_dumps_val r.huisnummertoevoeging ++
  ", \"straatnaam\": " ++ json_dumps_val r.straatnaam ++
  ", \"plaatsnaam\": " ++ json_dumps_val r.plaatsnaam ++ "\x7d"

/-- `json.dumps(full, ensure_ascii=False)` of the whole row list. -/
def json_dumps_full (rs : List AddressMatch) : String :=
  "[" ++ String.intercalate ", " (rs.map json_dumps_row) ++ "]"

/-- Lines 191–194 and 200–203: the mode-dependent not-found message. -/
def notFoundMsg (mode : SearchMode) (i : AddressInput) : String :=
  match mode with
  | SearchMode.postal_code =>
    "No verblijfsobject found for postal code " ++ pyShowOpt i.postal_code ++
    ", house number " ++ i.house_number
  | SearchMode.address =>
    "No verblijfsobject found for address: " ++ pyShowOpt i.street ++ " " ++
    i.house_number ++ ", " ++ pyShowOpt i.city ++
    ". Postal code + house number usually works better."

/-- Lines 174–188: `full = [ \x7b ...seven keys... \x7d for b in bindings ]`. -/
def fullRows (bindings : List Binding) : List AddressMatch :=
  bindings.map toMatch

/-- Line 189: the comprehension
`[item['bag_verblijfsobject_id'] for item in full if item['bag_verblijfsobject_id']]`
(truthiness filter, then extraction). -/
def idsOf (full : List AddressMatch) : List (Option String) :=
  (full.filter (fun item => truthy item.bag_verblijfsobject_id)).map
    (fun item => item.bag_verblijfsobject_id)

/-- Lines 170–205: classification of the HTTP response (`if bindings:` and
`if not ids:` are Python truthiness tests on lists, i.e. emptiness tests). -/
def classify (mode : SearchMode) (i : AddressInput) (status : Nat) (bindings : List Binding) : String :=
  if status = 200 then
    if bindings = [] then
      notFoundMsg mode i
    else
      if idsOf (fullRows bindings) = [] then
        notFoundMsg mode i
      else if (idsOf (fullRows bindings)).length = 1 then
        json_dumps_full (fullRows bindings)
      else
        "Ambiguous address: multiple results found: " ++ json_dumps_full (fullRows bindings)
  else
    "Error querying Kadaster endpoint: HTTP " ++ toString status

/-- The whole tool body (lines 60–207): validation, then — parameterised by
the network outcome — either the broadly caught exception path (line 206) or
response classification.  The function is total: every path returns a string,
mirroring that the Python function never raises past its `except Exception`. -/
def get_verblijfsobject_id (i : AddressInput) (net : NetResult) : String :=
  match validate i with
  | Except.error msg => msg
  | Except.ok mode =>
    match net with
    | NetResult.exn e => "Error executing SPARQL query: " ++ e
    | NetResult.http status bindings => classify mode i status bindings

/-- The outbound request (lines 158–169): issued only when validation
succeeded; `none` means no network call occurs. -/
structure SparqlRequest where
  url : String
  accept : String
  contentType : String
  query : String
deriving DecidableEq

/-- Request construction: `endpoint_url`, the two headers and the form field
`query`; `none` when validation returned early. -/
def requestOf (i : AddressInput) : Option SparqlRequest :=
  match validate i with
  | Except.error _ => none
  | Except.ok mode =>
    some ⟨"https://data.kkg.kadaster.nl/service/sparql",
      "application/sparql-results+json",
      "application/x-www-form-urlencoded",
      buildQuery mode i⟩

/-! ### The status adapter (`get_monumental_status`, lines 216–230) -/

mutual
/-- A JSON-serialisable Python value, as returned by the external
`MonumentenClient.process_from_list` and consumed by `json.dumps`. -/
inductive PyVal where
  | str (s : String)
  | int (n : Int)
  | bool (b : Bool)
  | null
  | list (xs : PyList)
  | dict (kvs : PyDict)
/-- A Python list of `PyVal`s. -/
inductive PyList where
  | nil
  | cons (x : PyVal) (xs : PyList)
/-- A Python dict with string keys, in insertion order. -/
inductive PyDict where
  | nil
  | cons (k : String) (v : PyVal) (rest : PyDict)
end

/-- Indentation emitted by `json.dumps(…, indent=2)` at nesting level `lvl`. -/
def pyInd (lvl : Nat) : String :=
  String.mk (List.replicate (2 * lvl) ' ')

mutual
/-- `json.dumps(v, indent=2)` (default `ensure_ascii=True`, separators
`','` / `': '` as CPython uses when `indent` is given), at nesting level
`lvl`. -/
def dumps2 : PyVal → Nat → String
  | PyVal.str s, _ => json_dumps_str true s
  | PyVal.int n, _ => toString n
  | PyVal.bool b, _ => if b then "true" else "false"
  | PyVal.null, _ => "null"
  | PyVal.list PyList.nil, _ => "[]"
  | PyVal.list (PyList.cons x xs), lvl =>
    "[\n" ++ dumps2Items (PyList.cons x xs) (lvl + 1) ++ "\n" ++ pyInd lvl ++ "]"
  | PyVal.dict PyDict.nil, _ => "\x7b\x7d"
  | PyVal.dict (PyDict.cons k v kvs), lvl =>
    "\x7b\n" ++ dumps2Pairs (PyDict.cons k v kvs) (lvl + 1) ++ "\n" ++ pyInd lvl ++ "\x7d"
/-- The comma-and-newline separated items of a non-empty list. -/
def dumps2Items : PyList → Nat → String
  | PyList.nil, _ => ""
  | PyList.cons x PyList.nil, lvl => pyInd lvl ++ dumps2 x lvl
  | PyList.cons x (PyList.cons y ys), lvl =>
    pyInd lvl ++ dumps2 x lvl ++ ",\n" ++ dumps2Items (PyList.cons y ys) lvl
/-- The comma-and-newline separated pairs of a non-empty dict. -/
def dumps2Pairs : PyDict → Nat → String
  | PyDict.nil, _ => ""
  | PyDict.cons k v PyDict.nil, lvl => pyInd lvl ++ json_dumps_str true k ++ ": " ++ dumps2 v lvl
  | PyDict.cons k v (PyDict.cons k2 v2 rest), lvl =>
    pyInd lvl ++ json_dumps_str true k ++ ": " ++ dumps2 v lvl ++ ",\n" ++
    dumps2Pairs (PyDict.cons k2 v2 rest) lvl
end

/-- The external `MonumentenClient`, reduced to its one used operation
`process_from_list`; an `Except.error` is an exception it raises, carrying the
exception's description. -/
structure MonumentenClient where
  process_from_list : List String → Except String PyVal

/-- The fixed advisory sentence appended at line 230. -/
def monumental_advisory : String :=
  ". Always mention the source for the Rijksmonument status if it is a Rijksmonument. RCE = Rijksdienst voor het Cultureel Erfgoed."

/-- Semantics of `async with MonumentenClient() as client: body` — the body's
value or exception is passed through unchanged, and the second component
records that the client's scoped exit ran (Python runs `__aexit__` on both the
normal and the exception path). -/
def withClient (client : MonumentenClient) (body : MonumentenClient → Except String String) :
    Except String String × Bool :=
  match body client with
  | Except.ok r => (Except.ok r, true)
  | Except.error e => (Except.error e, true)

/-- Lines 216–230: `get_monumental_status`.  The result is the client's value
for the one-element list `[bag_verblijfsobject_id]`, pretty-printed by
`json.dumps(result, indent=2)` inside an f-string with the advisory sentence;
there is no try/except, so a client exception propagates. -/
def get_monumental_status (client : MonumentenClient) (bag_verblijfsobject_id : String) :
    Except String String × Bool :=
  withClient client (fun c =>
    match c.process_from_list [bag_verblijfsobject_id] with
    | Except.ok result => Except.ok (dumps2 result 0 ++ monumental_advisory)
    | Except.error e => Except.error e)

/-! ### Substring occurrence (for claims about the SPARQL query text) -/

/-- `leadsWith p s`: the character list `p` is an initial segment of `s`. -/
def leadsWith : List Char → List Char → Bool
  | [], _ => true
  | _ :: _, [] => false
  | p :: ps, s :: ss => p == s && leadsWith ps ss

/-- `hasSub p s`: `p` occurs contiguously somewhere in `s`. -/
def hasSub (p : List Char) : List Char → Bool
  | [] => leadsWith p []
  | s :: ss => leadsWith p (s :: ss) || hasSub p ss

/-- `occursIn pat s`: the string `pat` occurs contiguously in the string `s`. -/
def occursIn (pat s : String) : Bool :=
  hasSub pat.data s.data

/-! ### Concrete instances used to exercise the theorems -/

/-- A valid postal-code-mode input. -/
def postalInput : AddressInput := ⟨"30", some "3011AD", none, none, none, none⟩

/-- A valid postal-code-mode input carrying a house letter and no suffix. -/
def letterInput : AddressInput := ⟨"30", some "3011AD", none, none, some "A", none⟩

/-- A valid address-mode input carrying a suffix and no letter. -/
def suffixInput : AddressInput := ⟨"30", none, some "Coolsingel", some "Rotterdam", none, some "2"⟩

/-- A binding with a non-null identifier and all mirrored fields. -/
def bindingWithId : Binding :=
  ⟨some "0599100000101910", some "3011AD", some "30", none, none, some "Coolsingel", some "Rotterdam"⟩

/-- A second, distinct binding with a non-null identifier. -/
def bindingWithId2 : Binding :=
  ⟨some "0599100000101911", some "3011AD", some "30", some "A", none, some "Coolsingel", some "Rotterdam"⟩

/-- A binding whose identifier is null but whose other fields are populated. -/
def bindingNoId : Binding :=
  ⟨none, some "3011AD", some "30", none, none, some "Coolsingel", some "Rotterdam"⟩

/-- A binding whose identifier is the empty string (as `STRAFTER` yields when
the source IRI does not start with the fixed verblijfsobject prefix). -/
def bindingEmptyId : Binding :=
  ⟨some "", some "3011AD", some "30", none, none, some "Coolsingel", some "Rotterdam"⟩

/-- Conflicting parameters: postal code together with a street. -/
def conflictInput : AddressInput := ⟨"30", some "3011AD", some "Coolsingel", none, none, none⟩

/-- `postal_code` supplied as the empty string, nothing else. -/
def emptyPostalInput : AddressInput := ⟨"30", some "", none, none, none, none⟩

/-- `postal_code` supplied whitespace-only, nothing else. -/
def blankPostalInput : AddressInput := ⟨"30", some "   ", none, none, none, none⟩

/-- Empty `postal_code` together with a whitespace-only street and a city. -/
def emptyPostalBlankStreetInput : AddressInput :=
  ⟨"30", some "", some " ", some "Rotterdam", none, none⟩

/-- Empty `postal_code` together with a usable street and city. -/
def emptyPostalAddressInput : AddressInput :=
  ⟨"30", some "", some "Coolsingel", some "Rotterdam", none, none⟩

/-- A valid postal-code-mode input with a house letter whose `postal_code`
value embeds the huisletter absence-filter text verbatim. -/
def injectionInput : AddressInput :=
  ⟨"30", some "FILTER NOT EXISTS \x7b ?adres imx:huisletter ?_hl . \x7d", none, none,
    some "A", none⟩

/-- A concrete status result: what `MonumentenClient.process_from_list` shapes
look like (a dict keyed by the requested identifier). -/
def exampleStatus : PyVal :=
  PyVal.dict (PyDict.cons "0518100000123456"
    (PyVal.dict (PyDict.cons "is_rijksmonument" (PyVal.bool true)
      (PyDict.cons "is_gemeentelijk_monument" (PyVal.bool false) PyDict.nil)))
    PyDict.nil)

/-- A client that answers every lookup with `exampleStatus`. -/
def okClient : MonumentenClient := ⟨fun _ => Except.ok exampleStatus⟩

/-- A client whose lookup raises (e.g. a connection failure). -/
def raisingClient : MonumentenClient := ⟨fun _ => Except.error "Connection refused"⟩

/-! ### General lemmas about the embedded string operations -/

theorem data_append (a b : String) : (a ++ b).data = a.data ++ b.data := by
  cases a
  cases b
  rfl

theorem leadsWith_append_self (p b : List Char) : leadsWith p (p ++ b) = true := by
  induction p with
  | nil => rfl
  | cons c cs ih => simp [leadsWith, ih]

theorem leadsWith_cancel (x p s : List Char) :
    leadsWith (x ++ p) (x ++ s) = leadsWith p s := by
  induction x with
  | nil => rfl
  | cons c cs ih => simp [leadsWith, ih]

theorem hasSub_of_leadsWith (p s : List Char) (h : leadsWith p s = true) :
    hasSub p s = true := by
  cases s with
  | nil => exact h
  | cons c cs => simp [hasSub, h]

theorem hasSub_append_right (a : List Char) (p t : List Char) (h : hasSub p t = true) :
    hasSub p (a ++ t) = true := by
  induction a with
  | nil => exact h
  | cons c cs ih => simp [hasSub, ih]

theorem occursIn_append_right (a pat t : String) (h : occursIn pat t = true) :
    occursIn pat (a ++ t) = true := by
  unfold occursIn at h ⊢
  rw [data_append]
  exact hasSub_append_right a.data pat.data t.data h

theorem occursIn_head (pat b : String) : occursIn pat (pat ++ b) = true := by
  unfold occursIn
  rw [data_append]
  exact hasSub_of_leadsWith _ _ (leadsWith_append_self pat.data b.data)

/-- An interpolation pattern `p1 ++ (x ++ p2)` occurs at the head of
`p1 ++ (x ++ (p2 ++ rest))`. -/
theorem occursIn_interp (p1 x p2 rest : String) :
    occursIn (p1 ++ (x ++ p2)) (p1 ++ (x ++ (p2 ++ rest))) = true := by
  unfold occursIn
  simp only [data_append, List.append_assoc]
  apply hasSub_of_leadsWith
  rw [← List.append_assoc p1.data x.data, ← List.append_assoc p1.data x.data,
    ← List.append_assoc (p1.data ++ x.data) p2.data]
  exact leadsWith_append_self _ _

theorem leadsWith_refl (p : List Char) : leadsWith p p = true := by
  have h := leadsWith_append_self p []
  simpa using h

theorem occursIn_self (s : String) : occursIn s s = true :=
  hasSub_of_leadsWith _ _ (leadsWith_refl s.data)

theorem sappend_assoc (a b c : String) : a ++ b ++ c = a ++ (b ++ c) := by
  cases a with
  | mk la =>
    cases b with
    | mk lb =>
      cases c with
      | mk lc =>
        show String.mk (la ++ lb ++ lc) = String.mk (la ++ (lb ++ lc))
        rw [List.append_assoc]

theorem ne_of_ne_data (s t : String) (h : s.data ≠ t.data) : s ≠ t :=
  fun he => h (congrArg String.data he)

theorem take_ne_imp_ne {α : Type} (n : Nat) (a b : List α) (h : a.take n ≠ b.take n) :
    a ≠ b := fun he => h (he ▸ rfl)

theorem take_append_of_le {α : Type} (n : Nat) (a b : List α) (h : n ≤ a.length) :
    (a ++ b).take n = a.take n := by
  induction a generalizing n with
  | nil =>
    cases n with
    | zero => rfl
    | succ m => exact absurd h (by simp)
  | cons c cs ih =>
    cases n with
    | zero => rfl
    | succ m =>
      simp only [List.cons_append, List.take_succ_cons]
      rw [ih m (Nat.le_of_succ_le_succ h)]

/-- A string starting with the prefix `p` differs from `t` whenever the first
`n ≤ p.length` characters of `p` and `t` already differ. -/
theorem prefixed_ne (p rest t : String) (n : Nat) (hn : n ≤ p.data.length)
    (h : p.data.take n ≠ t.data.take n) : p ++ rest ≠ t := by
  apply ne_of_ne_data
  rw [data_append]
  apply take_ne_imp_ne n
  rw [take_append_of_le n _ _ hn]
  exact h

/-- When no binding carries a truthy identifier, the `ids` comprehension is
empty. -/
theorem idsOf_eq_nil (bindings : List Binding)
    (h : ∀ b ∈ bindings, truthy b.identificatie = false) :
    idsOf (fullRows bindings) = [] := by
  unfold idsOf fullRows
  have hf : (bindings.map toMatch).filter (fun item => truthy item.bag_verblijfsobject_id) = [] := by
    rw [List.filter_eq_nil_iff]
    intro a ha
    obtain ⟨b, hb, rfl⟩ := List.mem_map.mp ha
    simp [toMatch, h b hb]
  rw [hf]
  rfl

/-- No classification outcome coincides with the conflicting-parameters
validation error (every branch output has a different fixed prefix). -/
theorem classify_ne_conflict (mode : SearchMode) (i : AddressInput) (status : Nat)
    (bindings : List Binding) :
    classify mode i status bindings ≠
      "Error: Provide either postal_code OR (street + city), not both." := by
  unfold classify
  split
  · split
    · cases mode <;> simp only [notFoundMsg, sappend_assoc] <;>
        exact prefixed_ne _ _ _ 2 (by decide) (by decide)
    · split
      · cases mode <;> simp only [notFoundMsg, sappend_assoc] <;>
          exact prefixed_ne _ _ _ 2 (by decide) (by decide)
      · split
        · unfold json_dumps_full
          simp only [sappend_assoc]
          exact prefixed_ne _ _ _ 1 (by decide) (by decide)
        · exact prefixed_ne _ _ _ 1 (by decide) (by decide)
  · exact prefixed_ne _ _ _ 6 (by decide) (by decide)

/-! ### Claim theorems -/

/-- Claim C4: whenever `postal_code` is populated and `street` or `city` is
also populated, `get_verblijfsobject_id` returns exactly the
conflicting-parameters error string for every possible network outcome, and no
request is ever constructed or sent. -/
theorem conflicting_params_short_circuit (i : AddressInput)
    (hp : truthy i.postal_code = true)
    (hsc : truthy i.street = true ∨ truthy i.city = true) :
    (∀ net, get_verblijfsobject_id i net =
      "Error: Provide either postal_code OR (street + city), not both.") ∧
    requestOf i = none := by
  have hv : validate i =
      Except.error "Error: Provide either postal_code OR (street + city), not both." := by
    unfold validate
    rcases hsc with h | h <;> simp [hp, h]
  refine ⟨fun net => ?_, ?_⟩
  · unfold get_verblijfsobject_id
    rw [hv]
  · unfold requestOf
    rw [hv]

/-- Witness for C4 at a concrete conflicting input. -/
theorem conflicting_params_short_circuit_witness :
    truthy conflictInput.postal_code = true ∧
    truthy conflictInput.street = true ∧
    get_verblijfsobject_id conflictInput (NetResult.http 200 [bindingWithId]) =
      "Error: Provide either postal_code OR (street + city), not both." ∧
    requestOf conflictInput = none := by
  refine ⟨by decide, by decide, ?_, ?_⟩
  · exact (conflicting_params_short_circuit conflictInput (by decide) (Or.inl (by decide))).1 _
  · exact (conflicting_params_short_circuit conflictInput (by decide) (Or.inl (by decide))).2

/-- Claim C5 counterexample: with `postal_code` supplied as the *empty* string
(and nothing else), the code treats the field as absent (`if postal_code:` is
falsy) and returns the missing-parameters error, not the empty-postal-code
error the claim asserts. -/
theorem empty_postal_code_counterexample :
    emptyPostalInput.postal_code = some "" ∧
    get_verblijfsobject_id emptyPostalInput (NetResult.http 200 []) =
      "Error: Provide either (postal_code + house_number) OR (street + house_number + city)." ∧
    get_verblijfsobject_id emptyPostalInput (NetResult.http 200 []) ≠
      "Error: postal_code cannot be empty when using postal code search." := by
  exact ⟨rfl, rfl, by decide⟩

/-- Claim C5 (amended): when `postal_code` is supplied *non-empty* but
whitespace-only (and neither `street` nor `city` is populated),
`get_verblijfsobject_id` fails with the empty-postal-code error string for
every network outcome and never reaches the network; an empty-string
`postal_code` is instead treated as absent. -/
theorem whitespace_postal_code_fails (i : AddressInput) (s : String)
    (hp : i.postal_code = some s) (hne : s ≠ "") (hw : pyStrip s = "")
    (hs : truthy i.street = false) (hc : truthy i.city = false) :
    (∀ net, get_verblijfsobject_id i net =
      "Error: postal_code cannot be empty when using postal code search.") ∧
    requestOf i = none := by
  have htp : truthy i.postal_code = true := by
    rw [hp]
    simp [truthy, hne]
  have hv : validate i =
      Except.error "Error: postal_code cannot be empty when using postal code search." := by
    have hts : truthy (some s) = true := by simp [truthy, hne]
    unfold validate
    simp [htp, hts, hs, hc, hp, hw]
  refine ⟨fun net => ?_, ?_⟩
  · unfold get_verblijfsobject_id
    rw [hv]
  · unfold requestOf
    rw [hv]

/-- Witness for the amended C5 at a whitespace-only postal code. -/
theorem whitespace_postal_code_fails_witness :
    blankPostalInput.postal_code = some "   " ∧ "   " ≠ "" ∧ pyStrip "   " = "" ∧
    get_verblijfsobject_id blankPostalInput (NetResult.exn "timeout") =
      "Error: postal_code cannot be empty when using postal code search." := by
  refine ⟨rfl, by decide, rfl, ?_⟩
  exact (whitespace_postal_code_fails blankPostalInput "   " rfl (by decide) rfl rfl rfl).1 _

/-- Claim C9 counterexample: with `postal_code = ""`, `street = " "`
(supplied, non-empty) and `city = "Rotterdam"`, the call does *not* proceed in
address mode — the whitespace-only street fails the strip check and the
empty-street/city error is returned instead. -/
theorem empty_postal_truthiness_counterexample :
    validate emptyPostalBlankStreetInput ≠ Except.ok SearchMode.address ∧
    get_verblijfsobject_id emptyPostalBlankStreetInput (NetResult.http 200 []) =
      "Error: street and city cannot be empty when using address search." := by
  constructor
  · intro h
    have h2 : (Except.error "Error: street and city cannot be empty when using address search." :
        Except String SearchMode) = Except.ok SearchMode.address :=
      (show validate emptyPostalBlankStreetInput =
          Except.error "Error: street and city cannot be empty when using address search." from rfl).symm.trans h
    exact Except.noConfusion h2
  · rfl

/-- Claim C9 (amended): when `postal_code` is the empty string and `street`
and `city` are populated with non-whitespace content, presence is tested by
string truthiness, so the empty `postal_code` is treated as absent: the
conflicting-parameters error is not returned, address mode is selected, and
the call proceeds to build and send the query. -/
theorem empty_postal_treated_absent (i : AddressInput)
    (hp : i.postal_code = some "")
    (hs : truthy i.street = true) (hc : truthy i.city = true)
    (hs2 : pyStrip (i.street.getD "") ≠ "") (hc2 : pyStrip (i.city.getD "") ≠ "") :
    validate i = Except.ok SearchMode.address ∧
    (∀ status bindings, get_verblijfsobject_id i (NetResult.http status bindings) =
      classify SearchMode.address i status bindings) ∧
    (requestOf i).isSome = true ∧
    (∀ net, get_verblijfsobject_id i net ≠
      "Error: Provide either postal_code OR (street + city), not both.") := by
  have htp : truthy i.postal_code = false := by
    rw [hp]
    rfl
  have hv : validate i = Except.ok SearchMode.address := by
    unfold validate
    simp [htp, hs, hc, hs2, hc2]
  refine ⟨hv, fun status bindings => ?_, ?_, fun net => ?_⟩
  · unfold get_verblijfsobject_id
    rw [hv]
  · unfold requestOf
    rw [hv]
    rfl
  · unfold get_verblijfsobject_id
    rw [hv]
    cases net with
    | exn e => exact prefixed_ne _ _ _ 6 (by decide) (by decide)
    | http status bindings => exact classify_ne_conflict SearchMode.address i status bindings

/-- Witness for the amended C9: empty postal code, usable street and city. -/
theorem empty_postal_treated_absent_witness :
    emptyPostalAddressInput.postal_code = some "" ∧
    validate emptyPostalAddressInput = Except.ok SearchMode.address ∧
    get_verblijfsobject_id emptyPostalAddressInput (NetResult.http 200 [bindingWithId]) ≠
      "Error: Provide either postal_code OR (street + city), not both." := by
  refine ⟨rfl, ?_, ?_⟩
  · exact (empty_postal_treated_absent emptyPostalAddressInput rfl (by decide) (by decide)
      (by decide) (by decide)).1
  · exact (empty_postal_treated_absent emptyPostalAddressInput rfl (by decide) (by decide)
      (by decide) (by decide)).2.2.2 _

/-- Claim C2: with a 200 response whose bindings (possibly none at all) carry
no truthy identifier — other fields may be populated — the result is the
mode-dependent not-found message: postal-code mode cites postal code and house
number, address mode cites street, house number and city and suggests
postal-code search.  Only bindings with a truthy identifier enter the tally. -/
theorem not_found_message (i : AddressInput) (mode : SearchMode) (bindings : List Binding)
    (hv : validate i = Except.ok mode)
    (hids : ∀ b ∈ bindings, truthy b.identificatie = false) :
    (mode = SearchMode.postal_code →
      get_verblijfsobject_id i (NetResult.http 200 bindings) =
        "No verblijfsobject found for postal code " ++ pyShowOpt i.postal_code ++
        ", house number " ++ i.house_number) ∧
    (mode = SearchMode.address →
      get_verblijfsobject_id i (NetResult.http 200 bindings) =
        "No verblijfsobject found for address: " ++ pyShowOpt i.street ++ " " ++
        i.house_number ++ ", " ++ pyShowOpt i.city ++
        ". Postal code + house number usually works better.") := by
  have hres : get_verblijfsobject_id i (NetResult.http 200 bindings) = notFoundMsg mode i := by
    unfold get_verblijfsobject_id
    rw [hv]
    show classify mode i 200 bindings = notFoundMsg mode i
    unfold classify
    rw [if_pos rfl]
    by_cases hb : bindings = []
    · rw [if_pos hb]
    · rw [if_neg hb, if_pos (idsOf_eq_nil bindings hids)]
  refine ⟨fun hm => ?_, fun hm => ?_⟩ <;> subst hm <;> rw [hres] <;> rfl

/-- Witness for C2: one binding with populated fields but a null identifier. -/
theorem not_found_message_witness :
    validate postalInput = Except.ok SearchMode.postal_code ∧
    bindingNoId.identificatie = none ∧ bindingNoId.straatnaam = some "Coolsingel" ∧
    get_verblijfsobject_id postalInput (NetResult.http 200 [bindingNoId]) =
      "No verblijfsobject found for postal code " ++ pyShowOpt postalInput.postal_code ++
      ", house number " ++ postalInput.house_number :=
  ⟨rfl, rfl, rfl,
    (not_found_message postalInput SearchMode.postal_code [bindingNoId] rfl (by decide)).1 rfl⟩

/-- Claim C10: a binding whose identifier is the empty string (what the
`STRAFTER` bind produces when the source IRI lacks the fixed verblijfsobject
prefix) is excluded by the truthiness filter exactly like a null identifier: a
response of only such bindings yields the not-found outcome, identical to the
same response with the identifiers nulled. -/
theorem empty_string_id_like_null (i : AddressInput) (mode : SearchMode)
    (bindings : List Binding)
    (hv : validate i = Except.ok mode) (hne : bindings ≠ [])
    (hid : ∀ b ∈ bindings, b.identificatie = some "") :
    get_verblijfsobject_id i (NetResult.http 200 bindings) = notFoundMsg mode i ∧
    get_verblijfsobject_id i (NetResult.http 200 bindings) =
      get_verblijfsobject_id i
        (NetResult.http 200 (bindings.map (fun b => { b with identificatie := none }))) := by
  have hfalse : ∀ b ∈ bindings, truthy b.identificatie = false := by
    intro b hb
    rw [hid b hb]
    rfl
  have h1 : get_verblijfsobject_id i (NetResult.http 200 bindings) = notFoundMsg mode i := by
    unfold get_verblijfsobject_id
    rw [hv]
    show classify mode i 200 bindings = notFoundMsg mode i
    unfold classify
    rw [if_pos rfl, if_neg hne, if_pos (idsOf_eq_nil bindings hfalse)]
  have hne2 : bindings.map (fun b => { b with identificatie := none }) ≠ [] := by
    simpa using hne
  have hfalse2 : ∀ b ∈ bindings.map (fun b => { b with identificatie := none }),
      truthy b.identificatie = false := by
    intro b hb
    obtain ⟨a, _, rfl⟩ := List.mem_map.mp hb
    rfl
  have h2 : get_verblijfsobject_id i
      (NetResult.http 200 (bindings.map (fun b => { b with identificatie := none }))) =
      notFoundMsg mode i := by
    unfold get_verblijfsobject_id
    rw [hv]
    show classify mode i 200 (bindings.map (fun b => { b with identificatie := none })) =
      notFoundMsg mode i
    unfold classify
    rw [if_pos rfl, if_neg hne2, if_pos (idsOf_eq_nil _ hfalse2)]
  exact ⟨h1, h1.trans h2.symm⟩

/-- Witness for C10: a response with one empty-string-identifier binding. -/
theorem empty_string_id_like_null_witness :
    bindingEmptyId.identificatie = some "" ∧
    get_verblijfsobject_id postalInput (NetResult.http 200 [bindingEmptyId]) =
      notFoundMsg SearchMode.postal_code postalInput :=
  ⟨rfl,
    (empty_string_id_like_null postalInput SearchMode.postal_code [bindingEmptyId] rfl
      (by decide) (by decide)).1⟩

/-- Claim C1 (amended): on a 200 response, if exactly one binding carries a
truthy identifier the result is the full row set JSON-encoded (one object per
binding, all seven mirrored fields each) with nothing prepended — a
one-element array exactly when the response has exactly one binding row; if
more than one binding carries a truthy identifier the result is the same
JSON-encoded row set prefixed with the ambiguous marker. -/
theorem unique_and_ambiguous_classification (i : AddressInput) (mode : SearchMode)
    (bindings : List Binding) (hv : validate i = Except.ok mode) :
    ((idsOf (fullRows bindings)).length = 1 →
      get_verblijfsobject_id i (NetResult.http 200 bindings) =
        json_dumps_full (fullRows bindings)) ∧
    (1 < (idsOf (fullRows bindings)).length →
      get_verblijfsobject_id i (NetResult.http 200 bindings) =
        "Ambiguous address: multiple results found: " ++ json_dumps_full (fullRows bindings)) := by
  constructor
  · intro h1
    have hbne : bindings ≠ [] := by
      intro he
      subst he
      exact absurd h1 (by decide)
    have hidsne : idsOf (fullRows bindings) ≠ [] := by
      intro he
      rw [he] at h1
      exact absurd h1 (by decide)
    unfold get_verblijfsobject_id
    rw [hv]
    show classify mode i 200 bindings = json_dumps_full (fullRows bindings)
    unfold classify
    rw [if_pos rfl, if_neg hbne, if_neg hidsne, if_pos h1]
  · intro h2
    have hbne : bindings ≠ [] := by
      intro he
      subst he
      exact absurd h2 (by decide)
    have hidsne : idsOf (fullRows bindings) ≠ [] := by
      intro he
      rw [he] at h2
      exact absurd h2 (by decide)
    have hlen : ¬ (idsOf (fullRows bindings)).length = 1 := by omega
    unfold get_verblijfsobject_id
    rw [hv]
    show classify mode i 200 bindings =
      "Ambiguous address: multiple results found: " ++ json_dumps_full (fullRows bindings)
    unfold classify
    rw [if_pos rfl, if_neg hbne, if_neg hidsne, if_neg hlen]

set_option maxRecDepth 8192 in
/-- Claim C1 counterexample: a response in which exactly one of two bindings
carries a non-null identifier.  The returned JSON is the dump of the full
two-row set — not a one-element array, and not the dump of just the matched
row. -/
theorem one_id_not_one_element_array :
    validate postalInput = Except.ok SearchMode.postal_code ∧
    (idsOf (fullRows [bindingWithId, bindingNoId])).length = 1 ∧
    get_verblijfsobject_id postalInput (NetResult.http 200 [bindingWithId, bindingNoId]) =
      json_dumps_full (fullRows [bindingWithId, bindingNoId]) ∧
    (fullRows [bindingWithId, bindingNoId]).length = 2 ∧
    get_verblijfsobject_id postalInput (NetResult.http 200 [bindingWithId, bindingNoId]) ≠
      json_dumps_full [toMatch bindingWithId] := by
  refine ⟨rfl, rfl, rfl, rfl, by decide⟩

set_option maxRecDepth 8192 in
/-- Witness for the amended C1, exercising both the unique and the ambiguous
branch at concrete responses. -/
theorem unique_and_ambiguous_classification_witness :
    (idsOf (fullRows [bindingWithId])).length = 1 ∧
    get_verblijfsobject_id postalInput (NetResult.http 200 [bindingWithId]) =
      json_dumps_full (fullRows [bindingWithId]) ∧
    1 < (idsOf (fullRows [bindingWithId, bindingWithId2])).length ∧
    get_verblijfsobject_id postalInput (NetResult.http 200 [bindingWithId, bindingWithId2]) =
      "Ambiguous address: multiple results found: " ++
        json_dumps_full (fullRows [bindingWithId, bindingWithId2]) := by
  refine ⟨by decide, ?_, by decide, ?_⟩
  · exact (unique_and_ambiguous_classification postalInput SearchMode.postal_code
      [bindingWithId] rfl).1 (by decide)
  · exact (unique_and_ambiguous_classification postalInput SearchMode.postal_code
      [bindingWithId, bindingWithId2] rfl).2 (by decide)

/-- Claim C6: past validation, the operation is total (the embedding returns a
string on every network outcome): a transport exception is surfaced as a
result string that extends — hence contains — the exception's text, and a
non-200 HTTP status is surfaced as a result string containing the numeric
status; neither is propagated. -/
theorem network_errors_as_strings (i : AddressInput) (mode : SearchMode)
    (hv : validate i = Except.ok mode) :
    (∀ e, get_verblijfsobject_id i (NetResult.exn e) =
        "Error executing SPARQL query: " ++ e ∧
      occursIn e (get_verblijfsobject_id i (NetResult.exn e)) = true) ∧
    (∀ status bindings, status ≠ 200 →
      get_verblijfsobject_id i (NetResult.http status bindings) =
        "Error querying Kadaster endpoint: HTTP " ++ toString status ∧
      occursIn (toString status)
        (get_verblijfsobject_id i (NetResult.http status bindings)) = true) := by
  constructor
  · intro e
    have h : get_verblijfsobject_id i (NetResult.exn e) =
        "Error executing SPARQL query: " ++ e := by
      unfold get_verblijfsobject_id
      rw [hv]
    refine ⟨h, ?_⟩
    rw [h]
    exact occursIn_append_right _ _ _ (occursIn_self e)
  · intro status bindings hst
    have h : get_verblijfsobject_id i (NetResult.http status bindings) =
        "Error querying Kadaster endpoint: HTTP " ++ toString status := by
      unfold get_verblijfsobject_id
      rw [hv]
      show classify mode i status bindings = _
      unfold classify
      rw [if_neg hst]
    refine ⟨h, ?_⟩
    rw [h]
    exact occursIn_append_right _ _ _ (occursIn_self _)

/-- Witness for C6: a connection failure and an HTTP 500. -/
theorem network_errors_as_strings_witness :
    get_verblijfsobject_id postalInput (NetResult.exn "Connection refused") =
      "Error executing SPARQL query: Connection refused" ∧
    occursIn "500" (get_verblijfsobject_id postalInput (NetResult.http 500 [])) = true := by
  constructor
  · exact ((network_errors_as_strings postalInput SearchMode.postal_code rfl).1
      "Connection refused").1
  · have h := ((network_errors_as_strings postalInput SearchMode.postal_code rfl).2
      500 [] (by decide)).2
    have heq : toString (500 : Nat) = "500" := rfl
    rw [← heq]
    exact h

/-- Claim C7: `get_monumental_status` delegates to the external client's batch
lookup with the one-element list `[bag_verblijfsobject_id]` — its outcome is
determined entirely by the client's value at that single-element call — and on
success returns that result pretty-printed by `json.dumps(…, indent=2)` with
the fixed advisory sentence appended verbatim. -/
theorem monumental_status_delegates (client : MonumentenClient) (bag_id : String)
    (result : PyVal)
    (h : client.process_from_list [bag_id] = Except.ok result) :
    (get_monumental_status client bag_id).1 =
      Except.ok (dumps2 result 0 ++ monumental_advisory) ∧
    monumental_advisory =
      ". Always mention the source for the Rijksmonument status if it is a Rijksmonument. RCE = Rijksdienst voor het Cultureel Erfgoed." ∧
    [bag_id].length = 1 := by
  refine ⟨?_, rfl, rfl⟩
  simp only [get_monumental_status, withClient, h]

/-- Witness for C7 at the identifier from the spec's example, with a concrete
status result, checking the exact indented JSON text produced. -/
theorem monumental_status_delegates_witness :
    okClient.process_from_list ["0518100000123456"] = Except.ok exampleStatus ∧
    (get_monumental_status okClient "0518100000123456").1 =
      Except.ok (dumps2 exampleStatus 0 ++ monumental_advisory) ∧
    dumps2 exampleStatus 0 =
      "\x7b\n  \"0518100000123456\": \x7b\n    \"is_rijksmonument\": true,\n    \"is_gemeentelijk_monument\": false\n  \x7d\n\x7d" := by
  refine ⟨rfl, ?_, rfl⟩
  exact (monumental_status_delegates okClient "0518100000123456" exampleStatus rfl).1

/-- Claim C8: `get_monumental_status` has no local exception handling — an
exception raised by the external client propagates unchanged — and the scoped
client acquisition releases the client on every exit path, the exception path
included (second component of the pair). -/
theorem monumental_status_propagates (client : MonumentenClient) (bag_id : String) :
    (∀ e, client.process_from_list [bag_id] = Except.error e →
      get_monumental_status client bag_id = (Except.error e, true)) ∧
    (get_monumental_status client bag_id).2 = true := by
  constructor
  · intro e he
    simp only [get_monumental_status, withClient, he]
  · cases h : client.process_from_list [bag_id] with
    | ok r => simp only [get_monumental_status, withClient, h]
    | error e => simp only [get_monumental_status, withClient, h]

/-- Witness for C8: a raising client; its exception text comes back unchanged
and the client is still released. -/
theorem monumental_status_propagates_witness :
    raisingClient.process_from_list ["0518100000123456"] =
      Except.error "Connection refused" ∧
    get_monumental_status raisingClient "0518100000123456" =
      (Except.error "Connection refused", true) :=
  ⟨rfl,
    (monumental_status_propagates raisingClient "0518100000123456").1
      "Connection refused" rfl⟩


/-- Claim C3: in both search modes the constructed query obeys the
presence/absence rule asymmetrically.  If `house_letter` is truthy the query
text contains the exact-match huisletter clause and the huisletter
absence-filter component assembled into the query is empty; otherwise the
query text contains the huisletter `FILTER NOT EXISTS`.  Independently for
`house_suffix`, whose absence filter — and only it — carries the
`?_hs != "H"` sentinel exception; the huisletter absence filter contains no
`!=` exception at all.  (The absence half is stated of the assembled filter
component because interpolated parameter values are copied verbatim into the
text, so a crafted value could embed the filter string itself.) -/
theorem query_letter_suffix_clauses (i : AddressInput) (mode : SearchMode)
    (hv : validate i = Except.ok mode) :
    (truthy i.house_letter = true →
      occursIn ("?adres imx:huisletter \"" ++ i.house_letter.getD "" ++ "\" .")
        (buildQuery mode i) = true ∧
      letter_filter i.house_letter = "") ∧
    (truthy i.house_letter = false →
      occursIn "FILTER NOT EXISTS \x7b ?adres imx:huisletter ?_hl . \x7d"
        (buildQuery mode i) = true ∧
      letter_clause i.house_letter = "") ∧
    (truthy i.house_suffix = true →
      occursIn ("?adres imx:huisnummertoevoeging \"" ++ i.house_suffix.getD "" ++ "\" .")
        (buildQuery mode i) = true ∧
      suffix_filter i.house_suffix = "") ∧
    (truthy i.house_suffix = false →
      occursIn "FILTER NOT EXISTS \x7b ?adres imx:huisnummertoevoeging ?_hs . FILTER(?_hs != \"H\") \x7d"
        (buildQuery mode i) = true ∧
      suffix_clause i.house_suffix = "") ∧
    occursIn "?_hs != \"H\"" (suffix_filter none) = true ∧
    occursIn "!=" (letter_filter none) = false := by
  cases mode with
  | postal_code =>
    refine ⟨fun h => ⟨?_, by simp [letter_filter, h]⟩,
      fun h => ⟨?_, by simp [letter_clause, h]⟩,
      fun h => ⟨?_, by simp [suffix_filter, h]⟩,
      fun h => ⟨?_, by simp [suffix_clause, h]⟩, by decide, by decide⟩
    · have hlc : letter_clause i.house_letter =
          "?adres imx:huisletter \"" ++ i.house_letter.getD "" ++ "\" ." := by
        simp [letter_clause, h]
      simp only [buildQuery, postalQuery, hlc, sappend_assoc]
      apply occursIn_append_right
      apply occursIn_append_right
      apply occursIn_append_right
      apply occursIn_append_right
      apply occursIn_append_right
      exact occursIn_interp _ _ _ _
    · have hlf : letter_filter i.house_letter =
          "FILTER NOT EXISTS \x7b ?adres imx:huisletter ?_hl . \x7d" := by
        simp [letter_filter, h]
      simp only [buildQuery, postalQuery, hlf, sappend_assoc]
      apply occursIn_append_right
      apply occursIn_append_right
      apply occursIn_append_right
      apply occursIn_append_right
      apply occursIn_append_right
      apply occursIn_append_right
      apply occursIn_append_right
      apply occursIn_append_right
      apply occursIn_append_right
      exact occursIn_head _ _
    · have hsc : suffix_clause i.house_suffix =
          "?adres imx:huisnummertoevoeging \"" ++ i.house_suffix.getD "" ++ "\" ." := by
        simp [suffix_clause, h]
      simp only [buildQuery, postalQuery, hsc, sappend_assoc]
      apply occursIn_append_right
      apply occursIn_append_right
      apply occursIn_append_right
      apply occursIn_append_right
      apply occursIn_append_right
      apply occursIn_append_right
      apply occursIn_append_right
      exact occursIn_interp _ _ _ _
    · have hsf : suffix_filter i.house_suffix =
          "FILTER NOT EXISTS \x7b ?adres imx:huisnummertoevoeging ?_hs . FILTER(?_hs != \"H\") \x7d" := by
        simp [suffix_filter, h]
      simp only [buildQuery, postalQuery, hsf, sappend_assoc]
      apply occursIn_append_right
      apply occursIn_append_right
      apply occursIn_append_right
      apply occursIn_append_right
      apply occursIn_append_right
      apply occursIn_append_right
      apply occursIn_append_right
      apply occursIn_append_right
      apply occursIn_append_right
      apply occursIn_append_right
      apply occursIn_append_right
      exact occursIn_head _ _
  | address =>
    refine ⟨fun h => ⟨?_, by simp [letter_filter, h]⟩,
      fun h => ⟨?_, by simp [letter_clause, h]⟩,
      fun h => ⟨?_, by simp [suffix_filter, h]⟩,
      fun h => ⟨?_, by simp [suffix_clause, h]⟩, by decide, by decide⟩
    · have hlc : letter_clause i.house_letter =
          "?adres imx:huisletter \"" ++ i.house_letter.getD "" ++ "\" ." := by
        simp [letter_clause, h]
      simp only [buildQuery, addressQuery, hlc, sappend_assoc]
      apply occursIn_append_right
      apply occursIn_append_right
      apply occursIn_append_right
      apply occursIn_append_right
      apply occursIn_append_right
      apply occursIn_append_right
      apply occursIn_append_right
      exact occursIn_interp _ _ _ _
    · have hlf : letter_filter i.house_letter =
          "FILTER NOT EXISTS \x7b ?adres imx:huisletter ?_hl . \x7d" := by
        simp [letter_filter, h]
      simp only [buildQuery, addressQuery, hlf, sappend_assoc]
      apply occursIn_append_right
      apply occursIn_append_right
      apply occursIn_append_right
      apply occursIn_append_right
      apply occursIn_append_right
      apply occursIn_append_right
      apply occursIn_append_right
      apply occursIn_append_right
      apply occursIn_append_right
      apply occursIn_append_right
      apply occursIn_append_right
      exact occursIn_head _ _
    · have hsc : suffix_clause i.house_suffix =
          "?adres imx:huisnummertoevoeging \"" ++ i.house_suffix.getD "" ++ "\" ." := by
        simp [suffix_clause, h]
      simp only [buildQuery, addressQuery, hsc, sappend_assoc]
      apply occursIn_append_right
      apply occursIn_append_right
      apply occursIn_append_right
      apply occursIn_append_right
      apply occursIn_append_right
      apply occursIn_append_right
      apply occursIn_append_right
      apply occursIn_append_right
      apply occursIn_append_right
      exact occursIn_interp _ _ _ _
    · have hsf : suffix_filter i.house_suffix =
          "FILTER NOT EXISTS \x7b ?adres imx:huisnummertoevoeging ?_hs . FILTER(?_hs != \"H\") \x7d" := by
        simp [suffix_filter, h]
      simp only [buildQuery, addressQuery, hsf, sappend_assoc]
      apply occursIn_append_right
      apply occursIn_append_right
      apply occursIn_append_right
      apply occursIn_append_right
      apply occursIn_append_right
      apply occursIn_append_right
      apply occursIn_append_right
      apply occursIn_append_right
      apply occursIn_append_right
      apply occursIn_append_right
      apply occursIn_append_right
      apply occursIn_append_right
      apply occursIn_append_right
      exact occursIn_head _ _

/-- Witness for C3: a postal-mode input with a house letter and no suffix, and
an address-mode input with a suffix and no letter. -/
theorem query_letter_suffix_clauses_witness :
    truthy letterInput.house_letter = true ∧
    occursIn ("?adres imx:huisletter \"" ++ letterInput.house_letter.getD "" ++ "\" .")
      (buildQuery SearchMode.postal_code letterInput) = true ∧
    letter_filter letterInput.house_letter = "" ∧
    occursIn "FILTER NOT EXISTS \x7b ?adres imx:huisnummertoevoeging ?_hs . FILTER(?_hs != \"H\") \x7d"
      (buildQuery SearchMode.postal_code letterInput) = true ∧
    occursIn ("?adres imx:huisnummertoevoeging \"" ++ suffixInput.house_suffix.getD "" ++ "\" .")
      (buildQuery SearchMode.address suffixInput) = true ∧
    occursIn "FILTER NOT EXISTS \x7b ?adres imx:huisletter ?_hl . \x7d"
      (buildQuery SearchMode.address suffixInput) = true := by
  have h1 := query_letter_suffix_clauses letterInput SearchMode.postal_code rfl
  have h2 := query_letter_suffix_clauses suffixInput SearchMode.address rfl
  exact ⟨rfl, (h1.1 rfl).1, (h1.1 rfl).2, (h1.2.2.2.1 rfl).1,
    (h2.2.2.1 rfl).1, (h2.2.1 rfl).1⟩

/-- Claim C3 counterexample: reading "contains no letter-absence filter"
over the raw query text fails, because interpolated values are copied
verbatim.  Here `house_letter` is given, yet the query text contains the
huisletter `FILTER NOT EXISTS` — embedded through the `postal_code` value of
an otherwise valid input. -/
theorem letter_filter_text_injection :
    truthy injectionInput.house_letter = true ∧
    validate injectionInput = Except.ok SearchMode.postal_code ∧
    occursIn "FILTER NOT EXISTS \x7b ?adres imx:huisletter ?_hl . \x7d"
      (buildQuery SearchMode.postal_code injectionInput) = true := by
  refine ⟨rfl, rfl, ?_⟩
  simp only [buildQuery, postalQuery, injectionInput, pyShowOpt, sappend_assoc]
  apply occursIn_append_right
  exact occursIn_head _ _
